import Mathlib

/-!
Shallow embedding of `src/app.py` (Flask + sqlite3 organization/user
directory).  Tables become Lean lists kept in insertion (rowid) order;
`ORDER BY id DESC` is modelled as `List.reverse` of that order; `fetchone`
of an unordered `SELECT` is `List.find?` (first row in table order).
JSON string fields are modelled as `Option String` (absent vs. present);
the two numeric fields of the organization-create body, whose truthiness
and `int(...)` coercion matter, are modelled by the small JSON value type
`JVal`.  All strings relevant to the claims are ASCII, and the Unicode
normalisation step of `werkzeug.utils.secure_filename` is the identity on
ASCII, so the sanitizer is modelled on ASCII text.
-/

namespace OrgApp

/-- Python-style JSON scalar, for fields whose truthiness / `int()`
coercion the handlers exercise (`max_coordinators`, `pending_requests`). -/
inductive JVal where
  | jnull
  | jbool (b : Bool)
  | jint (n : Int)
  | jstr (s : String)
deriving DecidableEq, Repr

/-- Python truthiness of a JSON scalar (`bool(x)`). -/
def truthy : JVal → Bool
  | .jnull => false
  | .jbool b => b
  | .jint n => n != 0
  | .jstr s => s != ""

/-- Truthiness of an optional string body field: absent and `""` are falsy
(`r not in data or not data[r]`). -/
def truthyS : Option String → Bool
  | none => false
  | some s => s != ""

/-- Truthiness of an optional integer body field: absent and `0` are falsy. -/
def truthyI : Option Int → Bool
  | none => false
  | some n => n != 0

/-- Truthiness of an optional JSON scalar body field. -/
def truthyJ : Option JVal → Bool
  | none => false
  | some j => truthy j

/-- ASCII whitespace recognised by Python's `str.split()` / `str.strip()`. -/
def isPySpace (c : Char) : Bool :=
  c = ' ' || c = '\t' || c = '\n' || c = '\r' || c = '\x0b' || c = '\x0c'

/-- Python `str.strip()` on ASCII text: drop leading and trailing whitespace. -/
def pyStrip (s : String) : String :=
  ⟨((s.data.dropWhile isPySpace).reverse.dropWhile isPySpace).reverse⟩

/-- Decimal digit test. -/
def isDig (c : Char) : Bool := '0' ≤ c && c ≤ '9'

/-- Tail of a Python integer literal after its first digit:
`(["_"] digit)*` — digits with single underscores allowed between digits. -/
def digTail : List Char → Bool
  | [] => true
  | ['_'] => false
  | '_' :: c :: rest => isDig c && digTail rest
  | c :: rest => isDig c && digTail rest

/-- Numeric value of a digit string (underscore separators already removed). -/
def digitsVal (cs : List Char) : Nat :=
  cs.foldl (fun acc c => acc * 10 + (c.toNat - 48)) 0

/-- Python `int(s)` on a string: optional surrounding whitespace, optional
sign, then a decimal literal (underscore group separators allowed).
`none` models the `ValueError` raised on anything else. -/
def pyIntOfString (s : String) : Option Int :=
  let cs := ((s.data.dropWhile isPySpace).reverse.dropWhile isPySpace).reverse
  let signed : Bool × List Char :=
    match cs with
    | '+' :: rest => (false, rest)
    | '-' :: rest => (true, rest)
    | rest => (false, rest)
  match signed.2 with
  | [] => none
  | c :: rest =>
    if isDig c && digTail rest then
      let v : Int := (digitsVal ((c :: rest).filter (fun x => x ≠ '_')) : Int)
      some (if signed.1 then -v else v)
    else none

/-- Python `int(x)` on a JSON scalar; `none` models the raised
`TypeError`/`ValueError`. -/
def pyToInt : JVal → Option Int
  | .jnull => none
  | .jbool b => some (if b then 1 else 0)
  | .jint n => some n
  | .jstr s => pyIntOfString s

/-- `int(data.get(k) or d)`: a falsy (or absent) value selects the default
`d` (whose coercion always succeeds); a truthy value is coerced by
`int(...)` and may fail. -/
def coerceNum (v : Option JVal) (d : Int) : Option Int :=
  match v with
  | none => some d
  | some j => if truthy j then pyToInt j else some d

/-- `data.get(k) or d` for string fields: absent or empty selects `d`. -/
def orDefault (v : Option String) (d : String) : String :=
  match v with
  | none => d
  | some s => if s = "" then d else s

/-- Character kept by `secure_filename`'s strip regex `[^A-Za-z0-9_.-]`. -/
def isSafeChar (c : Char) : Bool :=
  ('A' ≤ c && c ≤ 'Z') || ('a' ≤ c && c ≤ 'z') || ('0' ≤ c && c ≤ '9') ||
    c = '_' || c = '.' || c = '-'

/-- Leading/trailing characters removed by `.strip("._")`. -/
def isDotUnd (c : Char) : Bool := c = '.' || c = '_'

/-- `werkzeug.utils.secure_filename` on ASCII text (POSIX: `os.sep = '/'`,
`os.altsep = None`): keep ASCII, replace `'/'` with a space, split on
whitespace and rejoin with `'_'`, delete every character outside
`[A-Za-z0-9_.-]`, then strip leading/trailing `'.'`/`'_'`. -/
def secure_filename (s : String) : String :=
  let ascii := (s.data.filter (fun c => c.toNat < 128)).map
    (fun c => if c = '/' then ' ' else c)
  let joined := List.intercalate ['_']
    ((List.splitOnP isPySpace ascii).filter (fun w => w ≠ []))
  let kept := joined.filter isSafeChar
  ⟨((kept.dropWhile isDotUnd).reverse.dropWhile isDotUnd).reverse⟩

/-- ASCII lower-casing: Python's `str.lower()` restricted to ASCII, and the
case folding SQLite's default `LIKE` applies to ASCII letters. -/
def asciiLower (c : Char) : Char :=
  if 'A' ≤ c && c ≤ 'Z' then Char.ofNat (c.toNat + 32) else c

/-- The handler's slug derivation: `secure_filename(data['slug']).lower()`
(ASCII lowercase — all characters surviving the sanitizer are ASCII). -/
def sanitizeSlug (s : String) : String :=
  ⟨(secure_filename s).data.map asciiLower⟩

/-- SQLite `LIKE` pattern matching, with an explicit fuel argument so that
the recursion is structural (each step consumes pattern or text, so
`p.length + s.length + 1` fuel can never run out; the `0` case is
unreachable from `likeMatch`): `%` matches any sequence, `_` any single
character, and plain characters compare ASCII-case-insensitively (SQLite's
default — no `case_sensitive_like`, no `ESCAPE`). -/
def likeFuel : Nat → List Char → List Char → Bool
  | 0, _, _ => false
  | _ + 1, [], s => s.isEmpty
  | fuel + 1, '%' :: ps, [] => likeFuel fuel ps []
  | fuel + 1, '%' :: ps, c :: s =>
    likeFuel fuel ps (c :: s) || likeFuel fuel ('%' :: ps) s
  | _ + 1, '_' :: _, [] => false
  | fuel + 1, '_' :: ps, _ :: s => likeFuel fuel ps s
  | _ + 1, _ :: _, [] => false
  | fuel + 1, p :: ps, c :: s => (asciiLower p == asciiLower c) && likeFuel fuel ps s

/-- SQLite `LIKE` on character lists, with enough fuel for the whole match. -/
def likeMatch (p s : List Char) : Bool := likeFuel (p.length + s.length + 1) p s

/-- `value LIKE pattern` on strings. -/
def sqlLike (pat s : String) : Bool := likeMatch pat.data s.data

/-- Plain (case-sensitive, wildcard-free) substring containment — the
notion the specification's words "the query is a substring of" denote.
Stated from the spec for comparison with the code's `LIKE` semantics. -/
def listStartsWith : List Char → List Char → Bool
  | [], _ => true
  | _ :: _, [] => false
  | a :: as, b :: bs => a = b && listStartsWith as bs

/-- Auxiliary recursion for `plainSubstring`. -/
def plainSubstringAux (needle : List Char) : List Char → Bool
  | [] => listStartsWith needle []
  | c :: rest => listStartsWith needle (c :: rest) || plainSubstringAux needle rest

/-- Containment of `needle` as a contiguous run inside `hay`
(spec-side notion of "substring"). -/
def plainSubstring (needle hay : String) : Bool :=
  plainSubstringAux needle.data hay.data

/-- A row of the `organizations` table (`init_db`, lines 32-48).
`id` is the `INTEGER PRIMARY KEY AUTOINCREMENT` rowid; nullable `TEXT`
columns are `Option String`; `created_at` holds the insert timestamp. -/
structure Org where
  id : Nat
  name : String
  slug : String
  support_email : Option String
  phone : Option String
  alt_phone : Option String
  website : Option String
  max_coordinators : Int
  timezone : String
  language : String
  status : String
  pending_requests : Int
  created_at : String
deriving DecidableEq, Repr

/-- A row of the `users` table.  `org_id` is a nullable foreign key to
`organizations(id)`. -/
structure User where
  id : Nat
  org_id : Option Int
  name : String
  email : String
  role : String
  phone : Option String
  timezone : Option String
  created_at : String
deriving DecidableEq, Repr

/-- The persistent store: both tables in insertion (rowid) order, plus the
next `AUTOINCREMENT` id of each table. -/
structure DB where
  orgs : List Org
  users : List User
  nextOrgId : Nat
  nextUserId : Nat
deriving DecidableEq, Repr

/-- A fresh store (`AUTOINCREMENT` ids start at 1). -/
def emptyDB : DB := ⟨[], [], 1, 1⟩

/-- Outcome of one request: `success code body` for a `jsonify(...), 2xx`
return, `failure code msg` for a `jsonify({'error': msg}), 4xx` return, and
`pyError` for an uncaught Python exception (e.g. `int(...)` raising on a
non-coercible value). -/
inductive HResult (α : Type) where
  | success (code : Nat) (body : α)
  | failure (code : Nat) (msg : String)
  | pyError
deriving DecidableEq, Repr

/-- An SQL result cell, as serialised by `dict(row)`/`jsonify`. -/
inductive SqlValue where
  | vnull
  | vint (n : Int)
  | vtext (s : String)
deriving DecidableEq, Repr

/-- Nullable text column to cell. -/
def optText : Option String → SqlValue
  | none => .vnull
  | some s => .vtext s

/-- Nullable integer column to cell. -/
def optInt : Option Int → SqlValue
  | none => .vnull
  | some n => .vint n

/-- The partner row of `LEFT JOIN organizations o ON u.org_id = o.id`.
`organizations.id` is a primary key, so at most one row can match; the
first matching row in table order is therefore the unique one. -/
def joinedOrg (db : DB) (u : User) : Option Org :=
  match u.org_id with
  | none => none
  | some i => db.orgs.find? (fun o => ((o.id : Int) == i))

/-- `dict(r)` of a plain `SELECT u.*` row, keys in column order. -/
def userBaseRow (u : User) : List (String × SqlValue) :=
  [("id", .vint (u.id : Int)), ("org_id", optInt u.org_id),
   ("name", .vtext u.name), ("email", .vtext u.email),
   ("role", .vtext u.role), ("phone", optText u.phone),
   ("timezone", optText u.timezone), ("created_at", .vtext u.created_at)]

/-- `dict(r)` of a `SELECT u.*, o.name as organization_name, o.slug as
organization_slug ... LEFT JOIN` row. -/
def userRowJoinFull (db : DB) (u : User) : List (String × SqlValue) :=
  userBaseRow u ++
    [("organization_name", optText ((joinedOrg db u).map (fun o => o.name))),
     ("organization_slug", optText ((joinedOrg db u).map (fun o => o.slug)))]

/-- `dict(r)` of a `SELECT u.*, o.name as organization_name ... LEFT JOIN`
row (the shape used by the non-empty-query user search and by the
user-create re-read). -/
def userRowJoinName (db : DB) (u : User) : List (String × SqlValue) :=
  userBaseRow u ++
    [("organization_name", optText ((joinedOrg db u).map (fun o => o.name)))]

/-- Keys of a serialised row. -/
def rowKeys (r : List (String × SqlValue)) : List String := r.map Prod.fst

/-- Value stored under a key of a serialised row. -/
def rowVal (r : List (String × SqlValue)) (k : String) : Option SqlValue :=
  (r.find? (fun kv => kv.fst == k)).map (fun kv => kv.snd)

/-- Body of `POST /api/organizations`.  String-valued fields are
`Option String` (absent vs. supplied); the two numeric fields, whose
truthiness and `int(...)` coercion the handler exercises, carry a `JVal`. -/
structure OrgCreateReq where
  name : Option String
  slug : Option String
  support_email : Option String
  phone : Option String
  alt_phone : Option String
  website : Option String
  max_coordinators : Option JVal
  timezone : Option String
  language : Option String
  status : Option String
  pending_requests : Option JVal
deriving DecidableEq, Repr

/-- Body of `POST /api/users`. -/
structure UserCreateReq where
  name : Option String
  email : Option String
  role : Option String
  org_id : Option Int
  phone : Option String
  timezone : Option String
deriving DecidableEq, Repr

/-- Body of `PUT /api/organizations/{id}/status`: `none` models a body
without the `status` key. -/
structure StatusReq where
  status : Option String
deriving DecidableEq, Repr

/-- The row inserted by `api_create_organization` (lines 141-156): slug is
the sanitized one, string fields default via `or`, numeric fields carry
their already-coerced values. -/
def newOrg (oid : Nat) (req : OrgCreateReq) (mc pr : Int) (now : String) : Org :=
  { id := oid
    name := req.name.getD ""
    slug := sanitizeSlug (req.slug.getD "")
    support_email := req.support_email
    phone := req.phone
    alt_phone := req.alt_phone
    website := req.website
    max_coordinators := mc
    timezone := orDefault req.timezone "Asia/Kolkata"
    language := orDefault req.language "English"
    status := orDefault req.status "Active"
    pending_requests := pr
    created_at := now }

/-- `GET /api/organizations` (lines 114-119): all rows, id descending. -/
def api_get_organizations (db : DB) : HResult (List Org) :=
  .success 200 db.orgs.reverse

/-- `GET /api/organizations/{id}` (lines 121-128). -/
def api_get_organization (db : DB) (org_id : Nat) : HResult Org :=
  match db.orgs.find? (fun o => o.id == org_id) with
  | none => .failure 404 "Organization not found"
  | some row => .success 200 row

/-- `POST /api/organizations` (lines 130-163): required-field check on the
raw body, slug sanitization, `int(... or d)` coercions (raising before the
insert), the `UNIQUE` slug constraint collapsing to one Conflict message,
and the re-read of the created row by slug. -/
def api_create_organization (db : DB) (req : OrgCreateReq) (now : String) :
    HResult Org × DB :=
  if truthyS req.name = false then (.failure 400 "name is required", db)
  else if truthyS req.slug = false then (.failure 400 "slug is required", db)
  else
    match coerceNum req.max_coordinators 5, coerceNum req.pending_requests 0 with
    | some mc, some pr =>
      if (db.orgs.find? (fun o => o.slug == sanitizeSlug (req.slug.getD ""))).isSome
      then (.failure 400 "Slug already exists or invalid data", db)
      else
        let db' : DB := { db with
          orgs := db.orgs ++ [newOrg db.nextOrgId req mc pr now]
          nextOrgId := db.nextOrgId + 1 }
        match db'.orgs.find? (fun o => o.slug == sanitizeSlug (req.slug.getD "")) with
        | some row => (.success 201 row, db')
        | none => (.pyError, db')
    | _, _ => (.pyError, db)

/-- `PUT /api/organizations/{id}/status` (lines 165-177): key-presence
check, existence check, single-column `UPDATE ... WHERE id=?`, re-read. -/
def api_change_org_status (db : DB) (org_id : Nat) (req : StatusReq) :
    HResult Org × DB :=
  match req.status with
  | none => (.failure 400 "status required", db)
  | some st =>
    match db.orgs.find? (fun o => o.id == org_id) with
    | none => (.failure 404 "Organization not found", db)
    | some _ =>
      let db' : DB := { db with
        orgs := db.orgs.map (fun o => if o.id == org_id then { o with status := st } else o) }
      match db'.orgs.find? (fun o => o.id == org_id) with
      | some row => (.success 200 row, db')
      | none => (.pyError, db')

/-- `GET /api/users` (lines 179-189): all users joined with organization
name and slug, id descending. -/
def api_get_users (db : DB) : HResult (List (List (String × SqlValue))) :=
  .success 200 (db.users.reverse.map (userRowJoinFull db))

/-- The row inserted by `api_create_user` (lines 204-214): `org_id` is
`int(data['org_id'])`, optional fields pass through. -/
def newUser (uid : Nat) (req : UserCreateReq) (now : String) : User :=
  { id := uid
    org_id := some (req.org_id.getD 0)
    name := req.name.getD ""
    email := req.email.getD ""
    role := req.role.getD ""
    phone := req.phone
    timezone := req.timezone
    created_at := now }

/-- `POST /api/users` (lines 191-217): required-field loop (name, email,
role, org_id, in that order, Python-truthiness), organization existence
check answered with a 400, insert, and re-read of the new row by
`last_insert_rowid()` joined with the organization name. -/
def api_create_user (db : DB) (req : UserCreateReq) (now : String) :
    HResult (List (String × SqlValue)) × DB :=
  if truthyS req.name = false then (.failure 400 "name is required", db)
  else if truthyS req.email = false then (.failure 400 "email is required", db)
  else if truthyS req.role = false then (.failure 400 "role is required", db)
  else if truthyI req.org_id = false then (.failure 400 "org_id is required", db)
  else
    match db.orgs.find? (fun o => ((o.id : Int) == req.org_id.getD 0)) with
    | none => (.failure 400 "Organization does not exist", db)
    | some _ =>
      let db' : DB := { db with
        users := db.users ++ [newUser db.nextUserId req now]
        nextUserId := db.nextUserId + 1 }
      match db'.users.find? (fun x => x.id == (newUser db.nextUserId req now).id) with
      | some r => (.success 201 (userRowJoinName db' r), db')
      | none => (.pyError, db')

/-- Row predicate of the organization search `WHERE name LIKE ? OR slug
LIKE ?`. -/
def orgMatches (pat : String) (o : Org) : Bool :=
  sqlLike pat o.name || sqlLike pat o.slug

/-- Row predicate of the user search `WHERE u.name LIKE ? OR u.email LIKE ?
OR o.name LIKE ?` (a `NULL` joined name matches nothing). -/
def userMatches (db : DB) (pat : String) (u : User) : Bool :=
  sqlLike pat u.name || sqlLike pat u.email ||
    (match joinedOrg db u with
     | some o => sqlLike pat o.name
     | none => false)

/-- `GET /api/organizations/search?q=` (lines 220-229): stripped empty
query behaves as List, otherwise filter by the wildcard-wrapped pattern. -/
def api_search_orgs (db : DB) (q : String) : HResult (List Org) :=
  if pyStrip q = "" then .success 200 db.orgs.reverse
  else .success 200 ((db.orgs.filter (orgMatches ("%" ++ pyStrip q ++ "%"))).reverse)

/-- `GET /api/users/search?q=` (lines 231-250): stripped empty query is the
full three-column join of List; a non-empty query filters and selects only
`organization_name` alongside `u.*`. -/
def api_search_users (db : DB) (q : String) : HResult (List (List (String × SqlValue))) :=
  if pyStrip q = "" then .success 200 (db.users.reverse.map (userRowJoinFull db))
  else .success 200
    (((db.users.filter (userMatches db ("%" ++ pyStrip q ++ "%"))).reverse).map
      (userRowJoinName db))

/-- First seeded organization (lines 68-74). -/
def mitOrg (oid : Nat) (now : String) : Org :=
  { id := oid
    name := "Massachusetts Institute of Technology"
    slug := "mit"
    support_email := some "support@mit.edu"
    phone := some "+1-617-253-1000"
    alt_phone := some "+1-617-253-9999"
    website := some "https://mit.edu"
    max_coordinators := 5
    timezone := "America/New_York"
    language := "English"
    status := "Active"
    pending_requests := 45
    created_at := now }

/-- Second seeded organization (lines 68-74). -/
def gitamOrg (oid : Nat) (now : String) : Org :=
  { id := oid
    name := "GITAM Institute of Technology"
    slug := "gitam"
    support_email := some "gitam@gitam.in"
    phone := some "+91-9676456543"
    alt_phone := some "+91-93473294913"
    website := some "https://gitam.edu"
    max_coordinators := 5
    timezone := "Asia/Kolkata"
    language := "English"
    status := "Active"
    pending_requests := 45
    created_at := now }

/-- A seeded user row (lines 86-93). -/
def seedUser (uid : Nat) (oid : Int) (nm em rl ph tz now : String) : User :=
  { id := uid
    org_id := some oid
    name := nm
    email := em
    role := rl
    phone := some ph
    timezone := some tz
    created_at := now }

/-- `init_db` (lines 28-94), run once at startup: create-if-absent tables
(implicit in the model), then seed two organizations when that table is
empty and three users when the user table is empty, resolving the seed
`org_id`s by slug with numeric fallbacks 1 and 2. -/
def init_db (db : DB) (now : String) : DB :=
  let db1 : DB :=
    if db.orgs.isEmpty then
      { db with
        orgs := db.orgs ++ [mitOrg db.nextOrgId now, gitamOrg (db.nextOrgId + 1) now]
        nextOrgId := db.nextOrgId + 2 }
    else db
  if db1.users.isEmpty then
    let gitamId : Int :=
      match db1.orgs.find? (fun o => o.slug == "gitam") with
      | some r => (r.id : Int)
      | none => 1
    let mitId : Int :=
      match db1.orgs.find? (fun o => o.slug == "mit") with
      | some r => (r.id : Int)
      | none => 2
    { db1 with
      users := db1.users ++
        [seedUser db1.nextUserId gitamId "Dave Richards" "dave.richards@example.com"
           "Admin" "+91-9000000001" "Asia/Kolkata" now,
         seedUser (db1.nextUserId + 1) gitamId "Abhishek Hari" "abhishek.hari@example.com"
           "Co-ordinator" "+91-9000000002" "Asia/Kolkata" now,
         seedUser (db1.nextUserId + 2) mitId "Nishta Gupta" "nishta.gupta@example.com"
           "Admin" "+1-617-0000003" "America/New_York" now]
      nextUserId := db1.nextUserId + 3 }
  else db1

/-- The `UNIQUE` constraint on `organizations.slug`, as a store invariant. -/
def slugsUnique (db : DB) : Prop :=
  db.orgs.Pairwise (fun a b => a.slug ≠ b.slug)

/-- Request used to instantiate the round-trip claim: the spec's own
end-to-end example body. -/
def c1req : OrgCreateReq :=
  ⟨some "Test U", some "Test U!", none, none, none, none, none, none, none, none, none⟩

/-- Row produced by creating `c1req` in a fresh store. -/
def c1row : Org :=
  ⟨1, "Test U", "test_u", none, none, none, none, 5, "Asia/Kolkata", "English",
   "Active", 0, "T1"⟩

/-- Store state after creating `c1req` in a fresh store. -/
def c1db : DB := ⟨[c1row], [], 2, 1⟩

/-- Create body whose slug consists only of characters the sanitizer
strips. -/
def c9req : OrgCreateReq :=
  ⟨some "Punct Org", some "!!!", none, none, none, none, none, none, none, none, none⟩

/-- Row produced by creating `c9req` in a fresh store: its slug is empty. -/
def c9row : Org :=
  ⟨1, "Punct Org", "", none, none, none, none, 5, "Asia/Kolkata", "English",
   "Active", 0, "T1"⟩

/-- Store state after creating `c9req` in a fresh store. -/
def c9db : DB := ⟨[c9row], [], 2, 1⟩

/-- Create body with an empty name and a non-coercible numeric field: the
required-field check fires before the coercion ever runs. -/
def c8badReq : OrgCreateReq :=
  ⟨some "", some "x", none, none, none, none, some (.jstr "abc"), none, none, none, none⟩

/-- Valid create body except for a non-coercible `max_coordinators`. -/
def c8errReq : OrgCreateReq :=
  ⟨some "A", some "x", none, none, none, none, some (.jstr "abc"), none, none, none, none⟩

/-- Create body with truthy, coercible numeric fields. -/
def c8okReq : OrgCreateReq :=
  ⟨some "A", some "x", none, none, none, none, some (.jstr "7"), none, none, none,
   some (.jint 3)⟩

/-- Row produced by creating `c8okReq` in a fresh store. -/
def c8okRow : Org :=
  ⟨1, "A", "x", none, none, none, none, 7, "Asia/Kolkata", "English", "Active", 3, "T1"⟩

/-- Store state after creating `c8okReq` in a fresh store. -/
def c8okDB : DB := ⟨[c8okRow], [], 2, 1⟩

/-- Second create body whose slug sanitizes like `c1req`'s. -/
def c2dupReq : OrgCreateReq :=
  ⟨some "Another Org", some "Test U!", none, none, none, none, none, none, none, none, none⟩

/-- Create body with an empty name whose slug sanitizes like `c1req`'s. -/
def c2badReq : OrgCreateReq :=
  ⟨some "", some "Test U!", none, none, none, none, none, none, none, none, none⟩

/-- Organization whose name is upper-case: SQLite `LIKE` matches it
against a lower-case query even though that query is not a substring. -/
def c5org : Org :=
  ⟨1, "ABC", "zzz", none, none, none, none, 5, "Asia/Kolkata", "English",
   "Active", 0, "T0"⟩

/-- One-organization store used by the search claims. -/
def c5db : DB := ⟨[c5org], [], 2, 1⟩

/-- User row stored in the search-shape example store. -/
def c10user : User :=
  ⟨1, some 1, "Bob", "bob@example.com", "Admin", none, none, "T2"⟩

/-- Store with one organization and one user, for the search row-shape
claim. -/
def c10db : DB := ⟨[c1row], [c10user], 2, 2⟩

/-- Body used to exercise a user create against a missing organization. -/
def c3req : UserCreateReq :=
  ⟨some "Bob", some "bob@example.com", some "Admin", some 7, none, none⟩

/-- Body used to exercise a valid user create. -/
def c4req : UserCreateReq :=
  ⟨some "Bob", some "bob@example.com", some "Admin", some 1, none, none⟩

/-- `find?` over `l ++ [a]` when `l` has no match and `a` matches: the
appended row is the one found (the re-read pattern of both create
handlers). -/
theorem find_append_single_pos {α : Type} (p : α → Bool) (l : List α) (a : α)
    (h : l.find? p = none) (ha : p a = true) :
    (l ++ [a]).find? p = some a := by
  induction l with
  | nil => simp [List.find?, ha]
  | cons x xs ih =>
    by_cases hx : p x
    · simp [List.find?, hx] at h
    · simp only [List.find?, hx, List.cons_append, Bool.false_eq_true, cond_false] at h ⊢
      exact ih h

/-- `find?` commutes with `map` when the predicates correspond. -/
theorem find_map_eq {α β : Type} (f : α → β) (p : α → Bool) (q : β → Bool)
    (h : ∀ x, q (f x) = p x) (l : List α) :
    (l.map f).find? q = (l.find? p).map f := by
  induction l with
  | nil => simp
  | cons x xs ih =>
    by_cases hx : p x
    · simp [List.find?, h, hx]
    · simp [List.find?, h, hx, ih]

/-- C1: for every organization-create request with non-empty name and slug
that succeeds, the returned row's slug is the sanitized
(`secure_filename` then lowercase) form of the submitted slug, and
get-by-id at the returned row's id returns the identical row.  The
hypothesis `hfresh` is the `AUTOINCREMENT` invariant: no stored row
already carries the next rowid. -/
theorem C1_create_then_get (db : DB) (req : OrgCreateReq) (now : String)
    (row : Org) (db' : DB)
    (hfresh : ∀ o ∈ db.orgs, o.id ≠ db.nextOrgId)
    (h : api_create_organization db req now = (.success 201 row, db')) :
    row.slug = sanitizeSlug (req.slug.getD "") ∧
    api_get_organization db' row.id = .success 200 row := by
  unfold api_create_organization at h
  by_cases hn : truthyS req.name = false
  · rw [if_pos hn] at h; simp at h
  · rw [if_neg hn] at h
    by_cases hs : truthyS req.slug = false
    · rw [if_pos hs] at h; simp at h
    · rw [if_neg hs] at h
      rcases hmc : coerceNum req.max_coordinators 5 with _ | mc <;>
        rcases hpr : coerceNum req.pending_requests 0 with _ | pr <;>
        simp only [hmc, hpr] at h
      · simp at h
      · simp at h
      · simp at h
      by_cases hdup :
          (db.orgs.find? (fun o => o.slug == sanitizeSlug (req.slug.getD ""))).isSome = true
      · rw [if_pos hdup] at h; simp at h
      · rw [if_neg hdup] at h
        have hnone : db.orgs.find? (fun o => o.slug == sanitizeSlug (req.slug.getD "")) = none := by
          rcases hfo : db.orgs.find? (fun o => o.slug == sanitizeSlug (req.slug.getD "")) with
            _ | v
          · exact hfo
          · exact absurd (by rw [hfo]; rfl) hdup
        have hfind := find_append_single_pos
          (fun o => o.slug == sanitizeSlug (req.slug.getD "")) db.orgs
          (newOrg db.nextOrgId req mc pr now) hnone (by simp [newOrg])
        simp only [hfind] at h
        injection h with h1 h2
        injection h1 with hcode hbody
        subst hbody
        subst h2
        refine ⟨rfl, ?_⟩
        unfold api_get_organization
        have hid : db.orgs.find?
            (fun o => o.id == (newOrg db.nextOrgId req mc pr now).id) = none := by
          rw [List.find?_eq_none]
          intro x hx
          simpa [newOrg] using hfresh x hx
        have hfind2 := find_append_single_pos
          (fun o => o.id == (newOrg db.nextOrgId req mc pr now).id) db.orgs
          (newOrg db.nextOrgId req mc pr now) hid (by simp)
        simp only [hfind2]

/-- Witness for C1: the spec's own end-to-end example (`name` "Test U",
`slug` "Test U!") on a fresh store yields slug "test_u" and round-trips
through get-by-id. -/
theorem C1_witness :
    (∀ o ∈ emptyDB.orgs, o.id ≠ emptyDB.nextOrgId) ∧
    api_create_organization emptyDB c1req "T1" = (.success 201 c1row, c1db) ∧
    (c1row.slug = sanitizeSlug (c1req.slug.getD "") ∧
      api_get_organization c1db c1row.id = .success 200 c1row) :=
  ⟨by simp [emptyDB], by decide,
    C1_create_then_get emptyDB c1req "T1" c1row c1db (by simp [emptyDB]) (by decide)⟩

/-- Inversion of a successful organization create: the request passed
validation, both numeric coercions succeeded, no stored row already had
the sanitized slug, and the result is the freshly inserted row appended
to the table. -/
theorem create_org_success_inversion (db : DB) (req : OrgCreateReq) (now : String)
    (row : Org) (db' : DB)
    (h : api_create_organization db req now = (.success 201 row, db')) :
    ∃ mc pr, coerceNum req.max_coordinators 5 = some mc ∧
      coerceNum req.pending_requests 0 = some pr ∧
      truthyS req.name = true ∧ truthyS req.slug = true ∧
      db.orgs.find? (fun o => o.slug == sanitizeSlug (req.slug.getD "")) = none ∧
      row = newOrg db.nextOrgId req mc pr now ∧
      db' = { db with
              orgs := db.orgs ++ [newOrg db.nextOrgId req mc pr now]
              nextOrgId := db.nextOrgId + 1 } := by
  unfold api_create_organization at h
  by_cases hn : truthyS req.name = false
  · rw [if_pos hn] at h; simp at h
  · rw [if_neg hn] at h
    by_cases hs : truthyS req.slug = false
    · rw [if_pos hs] at h; simp at h
    · rw [if_neg hs] at h
      rcases hmc : coerceNum req.max_coordinators 5 with _ | mc <;>
        rcases hpr : coerceNum req.pending_requests 0 with _ | pr <;>
        simp only [hmc, hpr] at h
      · simp at h
      · simp at h
      · simp at h
      by_cases hdup :
          (db.orgs.find? (fun o => o.slug == sanitizeSlug (req.slug.getD ""))).isSome = true
      · rw [if_pos hdup] at h; simp at h
      · rw [if_neg hdup] at h
        have hnone : db.orgs.find? (fun o => o.slug == sanitizeSlug (req.slug.getD "")) = none := by
          rcases hfo : db.orgs.find? (fun o => o.slug == sanitizeSlug (req.slug.getD "")) with
            _ | v
          · exact hfo
          · exact absurd (by rw [hfo]; rfl) hdup
        have hfind := find_append_single_pos
          (fun o => o.slug == sanitizeSlug (req.slug.getD "")) db.orgs
          (newOrg db.nextOrgId req mc pr now) hnone (by simp [newOrg])
        simp only [hfind] at h
        injection h with h1 h2
        injection h1 with hcode hbody
        exact ⟨mc, pr, rfl, rfl, by simpa using hn, by simpa using hs, hnone,
          hbody.symm, h2.symm⟩

/-- C9: organization create validates non-emptiness of the raw submitted
slug only — the non-empty slug "!!!" sanitizes to the empty string, yet
the create succeeds with 201 and the stored and returned slug is `""`. -/
theorem C9_raw_slug_validated_only :
    c9req.slug = some "!!!" ∧ "!!!" ≠ "" ∧ sanitizeSlug "!!!" = "" ∧
    api_create_organization emptyDB c9req "T1" = (.success 201 c9row, c9db) ∧
    c9row.slug = "" ∧ c9db.orgs = [c9row] := by decide

/-- C3: every user-create request whose `org_id` does not reference an
existing organization (absent, zero, or pointing at no stored row) fails
with a 400 validation error, and the store — in particular the users
table — is returned unchanged. -/
theorem C3_user_create_missing_org (db : DB) (req : UserCreateReq) (now : String)
    (h : ∀ o ∈ db.orgs, ∀ v, req.org_id = some v → (o.id : Int) ≠ v) :
    ∃ msg, api_create_user db req now = (.failure 400 msg, db) := by
  unfold api_create_user
  by_cases hn : truthyS req.name = false
  · rw [if_pos hn]; exact ⟨_, rfl⟩
  · rw [if_neg hn]
    by_cases he : truthyS req.email = false
    · rw [if_pos he]; exact ⟨_, rfl⟩
    · rw [if_neg he]
      by_cases hr : truthyS req.role = false
      · rw [if_pos hr]; exact ⟨_, rfl⟩
      · rw [if_neg hr]
        by_cases ho : truthyI req.org_id = false
        · rw [if_pos ho]; exact ⟨_, rfl⟩
        · rw [if_neg ho]
          have hfind : db.orgs.find? (fun o => ((o.id : Int) == req.org_id.getD 0)) = none := by
            rw [List.find?_eq_none]
            intro x hx
            rcases hov : req.org_id with _ | v
            · exact absurd (by rw [hov]; rfl) ho
            · simpa [hov] using h x hx v hov
          rw [hfind]
          exact ⟨_, rfl⟩

/-- Witness for C3: creating a user with `org_id` 7 against a store whose
only organization has id 1 fails with a 400 and leaves the store as it
was. -/
theorem C3_witness :
    (∀ o ∈ c1db.orgs, ∀ v, c3req.org_id = some v → (o.id : Int) ≠ v) ∧
    (∃ msg, api_create_user c1db c3req "T2" = (.failure 400 msg, c1db)) :=
  ⟨by simp [c1db, c1row, c3req], C3_user_create_missing_org c1db c3req "T2"
    (by simp [c1db, c1row, c3req])⟩

/-- C6 counterexample: a status-update request whose body lacks the
`status` key, aimed at an id absent from the store, returns 400 — not the
404 the claim asserts for every status-update request on a missing id. -/
theorem C6_counterexample :
    api_change_org_status emptyDB 1 ⟨none⟩ = (.failure 400 "status required", emptyDB) ∧
    emptyDB.orgs.find? (fun o => o.id == 1) = none ∧
    (api_change_org_status emptyDB 1 ⟨none⟩).1 ≠ .failure 404 "Organization not found" := by
  decide

/-- C6 (amended): every status-update request whose body carries the
`status` key, aimed at an organization id absent from the store, returns
NotFound (404) and leaves the store completely unchanged. -/
theorem C6_status_update_missing_id (db : DB) (org_id : Nat) (st : String)
    (h : db.orgs.find? (fun o => o.id == org_id) = none) :
    api_change_org_status db org_id ⟨some st⟩ =
      (.failure 404 "Organization not found", db) := by
  unfold api_change_org_status
  rw [h]

/-- Witness for C6: updating status of id 9 in a store holding only id 1
returns 404 with the store untouched. -/
theorem C6_witness :
    c1db.orgs.find? (fun o => o.id == 9) = none ∧
    api_change_org_status c1db 9 ⟨some "Suspended"⟩ =
      (.failure 404 "Organization not found", c1db) :=
  ⟨by decide, C6_status_update_missing_id c1db 9 "Suspended" (by decide)⟩

/-- C7: a status update on an existing id (the stored row `o`), with the
`status` key present, returns 200 with the refreshed row — `o` with only
its status replaced — and the resulting store differs from the old one
exactly by mapping that in-place update over the organization table:
users, id counters, and (given the primary-key `Nodup` hypothesis) every
other organization row are unchanged. -/
theorem C7_status_update_single_field (db : DB) (org_id : Nat) (st : String) (o : Org)
    (hnodup : (db.orgs.map (fun x => x.id)).Nodup)
    (hfind : db.orgs.find? (fun x => x.id == org_id) = some o) :
    ∃ db', api_change_org_status db org_id ⟨some st⟩ =
        (.success 200 { o with status := st }, db') ∧
      db'.users = db.users ∧
      db'.nextOrgId = db.nextOrgId ∧ db'.nextUserId = db.nextUserId ∧
      db'.orgs = db.orgs.map
        (fun x => if x.id == org_id then { x with status := st } else x) ∧
      (∀ x ∈ db.orgs, x ≠ o → x ∈ db'.orgs) := by
  have hoid : o.id = org_id := by
    have := List.find?_some hfind
    simpa using this
  have homem : o ∈ db.orgs := List.mem_of_find?_eq_some hfind
  have hmap := find_map_eq
    (fun x => if x.id == org_id then { x with status := st } else x)
    (fun x => x.id == org_id) (fun x => x.id == org_id)
    (fun x => by by_cases hx : x.id = org_id <;> simp [hx]) db.orgs
  refine ⟨{ db with orgs := db.orgs.map (fun x => if x.id == org_id then { x with status := st } else x) }, ?_, rfl, rfl, rfl, rfl, ?_⟩
  · unfold api_change_org_status
    rw [hfind]
    have : (db.orgs.map
        (fun x => if x.id == org_id then { x with status := st } else x)).find?
        (fun x => x.id == org_id) = some { o with status := st } := by
      rw [hmap, hfind]
      simp [hoid]
    simp only [this]
  · intro x hx hxo
    have hxid : x.id ≠ org_id := by
      intro hcontra
      exact hxo (List.inj_on_of_nodup_map hnodup hx homem (by rw [hcontra, hoid]))
    refine List.mem_map.mpr ⟨x, hx, ?_⟩
    simp [hxid]

/-- Witness for C7: suspending the only organization of a one-row store
changes exactly its status. -/
theorem C7_witness :
    ((c1db.orgs.map (fun x => x.id)).Nodup ∧
      c1db.orgs.find? (fun x => x.id == 1) = some c1row) ∧
    (∃ db', api_change_org_status c1db 1 ⟨some "Suspended"⟩ =
        (.success 200 { c1row with status := "Suspended" }, db') ∧
      db'.users = c1db.users ∧
      db'.nextOrgId = c1db.nextOrgId ∧ db'.nextUserId = c1db.nextUserId ∧
      db'.orgs = c1db.orgs.map
        (fun x => if x.id == 1 then { x with status := "Suspended" } else x) ∧
      (∀ x ∈ c1db.orgs, x ≠ c1row → x ∈ db'.orgs)) :=
  ⟨⟨by decide, by decide⟩,
    C7_status_update_single_field c1db 1 "Suspended" c1row (by decide) (by decide)⟩

/-- C4: a user create with non-empty name, email and role and an `org_id`
referencing a stored organization `o` succeeds with 201, and the returned
row's `organization_name` column holds `o`'s name.  `hfresh` is the
`AUTOINCREMENT` invariant of the users table. -/
theorem C4_user_create_returns_org_name (db : DB) (req : UserCreateReq)
    (now : String) (oid : Int) (o : Org)
    (hname : truthyS req.name = true) (hemail : truthyS req.email = true)
    (hrole : truthyS req.role = true)
    (hoid : req.org_id = some oid) (hnz : oid ≠ 0)
    (hfound : db.orgs.find? (fun x => ((x.id : Int) == oid)) = some o)
    (hfresh : ∀ u ∈ db.users, u.id ≠ db.nextUserId) :
    ∃ row db', api_create_user db req now = (.success 201 row, db') ∧
      rowVal row "organization_name" = some (.vtext o.name) := by
  unfold api_create_user
  rw [if_neg (by simp [hname]), if_neg (by simp [hemail]), if_neg (by simp [hrole]),
    if_neg (by simp [truthyI, hoid, hnz])]
  simp only [hoid, Option.getD_some]
  have hunone : db.users.find? (fun x => x.id == (newUser db.nextUserId req now).id) = none := by
    rw [List.find?_eq_none]
    intro x hx
    simpa [newUser] using hfresh x hx
  have hfind2 := find_append_single_pos
    (fun x => x.id == (newUser db.nextUserId req now).id) db.users
    (newUser db.nextUserId req now) hunone (by simp)
  simp only [hfound, hfind2]
  refine ⟨_, _, rfl, ?_⟩
  simp [rowVal, userRowJoinName, userBaseRow, joinedOrg, newUser, List.find?,
    hoid, hfound, optText]

/-- Witness for C4: creating a user attached to the only organization of a
one-row store returns 201 with that organization's name in the row. -/
theorem C4_witness :
    (truthyS c4req.name = true ∧ truthyS c4req.email = true ∧
      truthyS c4req.role = true ∧ c4req.org_id = some 1 ∧ (1 : Int) ≠ 0 ∧
      c1db.orgs.find? (fun x => ((x.id : Int) == (1 : Int))) = some c1row ∧
      (∀ u ∈ c1db.users, u.id ≠ c1db.nextUserId)) ∧
    (∃ row db', api_create_user c1db c4req "T2" = (.success 201 row, db') ∧
      rowVal row "organization_name" = some (.vtext c1row.name)) :=
  ⟨⟨rfl, rfl, rfl, rfl, by decide, by decide, by simp [c1db]⟩,
    C4_user_create_returns_org_name c1db c4req "T2" 1 c1row rfl rfl rfl rfl
      (by decide) (by decide) (by simp [c1db])⟩

/-- C8 counterexample: a request supplying the non-coercible
`max_coordinators` "abc" together with an empty name fails with the 400
required-field validation, not with a type error — so "for every create
request a non-coercible value fails with a type error" is false as
stated. -/
theorem C8_counterexample :
    c8badReq.max_coordinators = some (JVal.jstr "abc") ∧
    truthy (JVal.jstr "abc") = true ∧ pyToInt (JVal.jstr "abc") = none ∧
    api_create_organization emptyDB c8badReq "T1" =
      (.failure 400 "name is required", emptyDB) ∧
    (api_create_organization emptyDB c8badReq "T1").1 ≠ HResult.pyError := by
  decide

/-- C8 (amended): on every successful create the stored (and returned)
row's numeric fields are 5 and 0 when the submitted values are absent or
falsy, and the `int(...)` image of the submitted value when truthy; and a
request passing required-field validation whose truthy numeric value is
not coercible fails with a type error (an uncaught Python exception, here
`pyError`) with nothing written. -/
theorem C8_numeric_defaults_and_coercion :
    (∀ db req now row db',
      api_create_organization db req now = (.success 201 row, db') →
      ((truthyJ req.max_coordinators = false → row.max_coordinators = 5) ∧
       (truthyJ req.pending_requests = false → row.pending_requests = 0) ∧
       (∀ j, req.max_coordinators = some j → truthy j = true →
         pyToInt j = some row.max_coordinators) ∧
       (∀ j, req.pending_requests = some j → truthy j = true →
         pyToInt j = some row.pending_requests))) ∧
    (∀ db req now, truthyS req.name = true → truthyS req.slug = true →
      ((∃ j, req.max_coordinators = some j ∧ truthy j = true ∧ pyToInt j = none) ∨
       (∃ j, req.pending_requests = some j ∧ truthy j = true ∧ pyToInt j = none)) →
      api_create_organization db req now = (.pyError, db)) := by
  constructor
  · intro db req now row db' h
    obtain ⟨mc, pr, hmc, hpr, hn, hs, hnone, hrow, hdb⟩ :=
      create_org_success_inversion db req now row db' h
    subst hrow
    refine ⟨?_, ?_, ?_, ?_⟩
    · intro hfal
      rcases hj : req.max_coordinators with _ | j
      · rw [hj] at hmc; simp [coerceNum] at hmc; simp [newOrg, hmc.symm]
      · rw [hj] at hfal hmc
        simp only [truthyJ] at hfal
        simp [coerceNum, hfal] at hmc
        simp [newOrg, hmc.symm]
    · intro hfal
      rcases hj : req.pending_requests with _ | j
      · rw [hj] at hpr; simp [coerceNum] at hpr; simp [newOrg, hpr.symm]
      · rw [hj] at hfal hpr
        simp only [truthyJ] at hfal
        simp [coerceNum, hfal] at hpr
        simp [newOrg, hpr.symm]
    · intro j hj htr
      rw [hj] at hmc
      simp [coerceNum, htr] at hmc
      simp [newOrg, hmc]
    · intro j hj htr
      rw [hj] at hpr
      simp [coerceNum, htr] at hpr
      simp [newOrg, hpr]
  · intro db req now hn hs hbad
    unfold api_create_organization
    rw [if_neg (by simp [hn]), if_neg (by simp [hs])]
    rcases hbad with ⟨j, hj, htr, hnone⟩ | ⟨j, hj, htr, hnone⟩
    · have h1 : coerceNum req.max_coordinators 5 = none := by
        simp [coerceNum, hj, htr, hnone]
      rcases h2 : coerceNum req.pending_requests 0 with _ | pr <;> simp [h1, h2]
    · have h2 : coerceNum req.pending_requests 0 = none := by
        simp [coerceNum, hj, htr, hnone]
      rcases h1 : coerceNum req.max_coordinators 5 with _ | mc <;> simp [h1, h2]

/-- Witness for C8: a truthy coercible pair ("7", 3) is stored as (7, 3)
on success, and the same store rejects "abc" with a type error when the
request passes validation. -/
theorem C8_witness :
    (api_create_organization emptyDB c8okReq "T1" = (.success 201 c8okRow, c8okDB) ∧
      (pyToInt (JVal.jstr "7") = some c8okRow.max_coordinators ∧
        pyToInt (JVal.jint 3) = some c8okRow.pending_requests)) ∧
    (truthyS c8errReq.name = true ∧ truthyS c8errReq.slug = true ∧
      api_create_organization emptyDB c8errReq "T1" = (.pyError, emptyDB)) :=
  ⟨⟨by decide,
    ⟨(C8_numeric_defaults_and_coercion.1 emptyDB c8okReq "T1" c8okRow c8okDB
        (by decide)).2.2.1 (JVal.jstr "7") rfl rfl,
      (C8_numeric_defaults_and_coercion.1 emptyDB c8okReq "T1" c8okRow c8okDB
        (by decide)).2.2.2 (JVal.jint 3) rfl rfl⟩⟩,
   ⟨rfl, rfl, C8_numeric_defaults_and_coercion.2 emptyDB c8errReq "T1" rfl rfl
      (Or.inl ⟨JVal.jstr "abc", rfl, rfl, by decide⟩)⟩⟩

/-- Appending a row whose slug no stored row carries preserves pairwise
slug distinctness. -/
theorem slugsUnique_append_new (db : DB) (o : Org) (hu : slugsUnique db)
    (hn : db.orgs.find? (fun x => x.slug == o.slug) = none) :
    (db.orgs ++ [o]).Pairwise (fun a b => a.slug ≠ b.slug) := by
  rw [List.pairwise_append]
  refine ⟨hu, by simp, ?_⟩
  intro a ha b hb
  have hne := List.find?_eq_none.mp hn a ha
  simp only [beq_iff_eq] at hne
  have hb' : b = o := by simpa using hb
  rw [hb']
  simpa using hne

/-- C2 counterexample: after a successful create of slug "Test U!", a
second create request sanitizing to the same slug but carrying an empty
name fails with the 400 required-field validation message, not with the
Conflict message the claim asserts for every such second request. -/
theorem C2_counterexample :
    sanitizeSlug (c2badReq.slug.getD "") = sanitizeSlug (c1req.slug.getD "") ∧
    api_create_organization emptyDB c1req "T1" = (.success 201 c1row, c1db) ∧
    api_create_organization c1db c2badReq "T2" =
      (.failure 400 "name is required", c1db) ∧
    (api_create_organization c1db c2badReq "T2").1 ≠
      .failure 400 "Slug already exists or invalid data" := by
  decide

/-- C2 (amended): after a successful create, every second create request
that passes validation and numeric coercion and whose slug sanitizes to
the same value fails with the generic Conflict message and writes nothing,
leaving exactly one stored row with that slug; and slug uniqueness is
preserved by every operation (organization create, status update, user
create, and the startup seeding). -/
theorem C2_slug_uniqueness :
    (∀ db r1 r2 t1 t2 row1 db1,
      api_create_organization db r1 t1 = (.success 201 row1, db1) →
      truthyS r2.name = true → truthyS r2.slug = true →
      (coerceNum r2.max_coordinators 5).isSome = true →
      (coerceNum r2.pending_requests 0).isSome = true →
      sanitizeSlug (r2.slug.getD "") = sanitizeSlug (r1.slug.getD "") →
      api_create_organization db1 r2 t2 =
        (.failure 400 "Slug already exists or invalid data", db1) ∧
      db1.orgs.countP (fun o => o.slug == sanitizeSlug (r1.slug.getD "")) = 1) ∧
    (∀ db r t, slugsUnique db → slugsUnique (api_create_organization db r t).2) ∧
    (∀ db i req, slugsUnique db → slugsUnique (api_change_org_status db i req).2) ∧
    (∀ db r t, slugsUnique db → slugsUnique (api_create_user db r t).2) ∧
    (∀ db t, slugsUnique db → slugsUnique (init_db db t)) := by
  refine ⟨?_, ?_, ?_, ?_, ?_⟩
  · intro db r1 r2 t1 t2 row1 db1 h1 hn2 hs2 hmc2 hpr2 hsan
    obtain ⟨mc, pr, hmc, hpr, hn1, hs1, hnone, hrow, hdb⟩ :=
      create_org_success_inversion db r1 t1 row1 db1 h1
    subst hdb
    have hfind : (db.orgs ++ [newOrg db.nextOrgId r1 mc pr t1]).find?
        (fun o => o.slug == sanitizeSlug (r1.slug.getD "")) =
        some (newOrg db.nextOrgId r1 mc pr t1) :=
      find_append_single_pos _ _ _ hnone (by simp [newOrg])
    constructor
    · unfold api_create_organization
      rw [if_neg (by simp [hn2]), if_neg (by simp [hs2])]
      rcases hmc2' : coerceNum r2.max_coordinators 5 with _ | mc2
      · rw [hmc2'] at hmc2; simp at hmc2
      rcases hpr2' : coerceNum r2.pending_requests 0 with _ | pr2
      · rw [hpr2'] at hpr2; simp at hpr2
      simp only [hsan, hfind, Option.isSome_some, if_true]
    · rw [List.countP_append]
      have h0 : db.orgs.countP (fun o => o.slug == sanitizeSlug (r1.slug.getD "")) = 0 := by
        rw [List.countP_eq_zero]
        intro a ha
        exact List.find?_eq_none.mp hnone a ha
      rw [h0]
      simp [newOrg, List.countP_cons]
  · intro db r t hu
    unfold api_create_organization
    by_cases hn : truthyS r.name = false
    · rw [if_pos hn]; exact hu
    rw [if_neg hn]
    by_cases hs : truthyS r.slug = false
    · rw [if_pos hs]; exact hu
    rw [if_neg hs]
    rcases hmc : coerceNum r.max_coordinators 5 with _ | mc <;>
      rcases hpr : coerceNum r.pending_requests 0 with _ | pr <;>
      simp only
    · exact hu
    · exact hu
    · exact hu
    by_cases hdup :
        (db.orgs.find? (fun o => o.slug == sanitizeSlug (r.slug.getD ""))).isSome = true
    · rw [if_pos hdup]; exact hu
    · rw [if_neg hdup]
      have hnone : db.orgs.find? (fun o => o.slug == sanitizeSlug (r.slug.getD "")) = none := by
        rcases hfo : db.orgs.find? (fun o => o.slug == sanitizeSlug (r.slug.getD "")) with _ | v
        · exact hfo
        · exact absurd (by rw [hfo]; rfl) hdup
      rcases hfa : (db.orgs ++ [newOrg db.nextOrgId r mc pr t]).find?
          (fun o => o.slug == sanitizeSlug (r.slug.getD "")) with _ | row <;>
        simp only [hfa] <;>
        exact slugsUnique_append_new db (newOrg db.nextOrgId r mc pr t) hu hnone
  · intro db i req hu
    unfold api_change_org_status
    split
    · exact hu
    split
    · exact hu
    dsimp only
    split <;>
    · rw [slugsUnique] at hu ⊢
      rw [List.pairwise_map]
      refine hu.imp ?_
      intro a b hab
      by_cases ha : a.id == i <;> by_cases hb2 : b.id == i <;> simp [ha, hb2, hab]
  · intro db r t hu
    unfold api_create_user
    split
    · exact hu
    split
    · exact hu
    split
    · exact hu
    split
    · exact hu
    split
    · exact hu
    dsimp only
    split <;> exact hu
  · intro db t hu
    unfold init_db
    by_cases ho : db.orgs.isEmpty
    · have horgs : db.orgs = [] := by simpa [List.isEmpty_iff] using ho
      rw [if_pos ho]
      have hpw : (db.orgs ++ [mitOrg db.nextOrgId t, gitamOrg (db.nextOrgId + 1) t]).Pairwise
          (fun a b => a.slug ≠ b.slug) := by
        rw [horgs]
        simp [mitOrg, gitamOrg]
      by_cases hus : ({ db with
          orgs := db.orgs ++ [mitOrg db.nextOrgId t, gitamOrg (db.nextOrgId + 1) t]
          nextOrgId := db.nextOrgId + 2 } : DB).users.isEmpty
      · rw [if_pos hus]; exact hpw
      · rw [if_neg hus]; exact hpw
    · rw [if_neg ho]
      by_cases hus : db.users.isEmpty
      · rw [if_pos hus]; exact hu
      · rw [if_neg hus]; exact hu

/-- Witness for C2: after creating slug "Test U!" in a fresh store, a
well-formed second create whose slug sanitizes identically fails with the
Conflict message, nothing is written, and exactly one stored row carries
"test_u". -/
theorem C2_witness :
    (api_create_organization emptyDB c1req "T1" = (.success 201 c1row, c1db) ∧
      truthyS c2dupReq.name = true ∧ truthyS c2dupReq.slug = true ∧
      (coerceNum c2dupReq.max_coordinators 5).isSome = true ∧
      (coerceNum c2dupReq.pending_requests 0).isSome = true ∧
      sanitizeSlug (c2dupReq.slug.getD "") = sanitizeSlug (c1req.slug.getD "")) ∧
    (api_create_organization c1db c2dupReq "T2" =
        (.failure 400 "Slug already exists or invalid data", c1db) ∧
      c1db.orgs.countP (fun o => o.slug == sanitizeSlug (c1req.slug.getD "")) = 1) :=
  ⟨⟨by decide, rfl, rfl, by decide, by decide, by decide⟩,
    C2_slug_uniqueness.1 emptyDB c1req c2dupReq "T1" "T2" c1row c1db
      (by decide) rfl rfl (by decide) (by decide) (by decide)⟩

/-- C5 counterexample: the query "abc" returns the organization named
"ABC" (SQLite `LIKE` is ASCII-case-insensitive), although "abc" is a
substring of neither its name nor its slug — so "a row is returned iff the
query is a substring of its name or slug" is false as stated. -/
theorem C5_counterexample :
    pyStrip "abc" = "abc" ∧
    api_search_orgs c5db "abc" = .success 200 [c5org] ∧
    plainSubstring "abc" c5org.name = false ∧
    plainSubstring "abc" c5org.slug = false := by
  decide

/-- C5 (amended): a stripped-empty query makes both search endpoints
coincide with their List endpoints; a non-empty query returns exactly the
rows whose searched columns `LIKE`-match the wildcard-wrapped pattern
`%q%` (SQLite semantics: ASCII-case-insensitive, `%`/`_` wildcards) —
name or slug for organizations, name, email or joined organization name
for users; and both searches always answer 200, an empty result included. -/
theorem C5_search_vs_list :
    (∀ db q, pyStrip q = "" → api_search_orgs db q = api_get_organizations db) ∧
    (∀ db q, pyStrip q = "" → api_search_users db q = api_get_users db) ∧
    (∀ db q rows, pyStrip q ≠ "" → api_search_orgs db q = .success 200 rows →
      ∀ o, o ∈ rows ↔
        (o ∈ db.orgs ∧ orgMatches ("%" ++ pyStrip q ++ "%") o = true)) ∧
    (∀ db q rows, pyStrip q ≠ "" → api_search_users db q = .success 200 rows →
      ∀ r, r ∈ rows ↔ ∃ u, u ∈ db.users ∧
        userMatches db ("%" ++ pyStrip q ++ "%") u = true ∧
        r = userRowJoinName db u) ∧
    (∀ db q, ∃ rows, api_search_orgs db q = .success 200 rows) ∧
    (∀ db q, ∃ rows, api_search_users db q = .success 200 rows) := by
  refine ⟨?_, ?_, ?_, ?_, ?_, ?_⟩
  · intro db q hq
    unfold api_search_orgs api_get_organizations
    rw [if_pos hq]
  · intro db q hq
    unfold api_search_users api_get_users
    rw [if_pos hq]
  · intro db q rows hq h o
    unfold api_search_orgs at h
    rw [if_neg hq] at h
    injection h with hc hb
    subst hb
    simp [List.mem_reverse, List.mem_filter]
  · intro db q rows hq h r
    unfold api_search_users at h
    rw [if_neg hq] at h
    injection h with hc hb
    subst hb
    simp only [List.mem_map, List.mem_reverse, List.mem_filter]
    constructor
    · rintro ⟨u, ⟨h1, h2⟩, h3⟩
      exact ⟨u, h1, h2, h3.symm⟩
    · rintro ⟨u, h1, h2, h3⟩
      exact ⟨u, ⟨h1, h2⟩, h3.symm⟩
  · intro db q
    unfold api_search_orgs
    split <;> exact ⟨_, rfl⟩
  · intro db q
    unfold api_search_users
    split <;> exact ⟨_, rfl⟩

/-- Witness for C5: on the one-organization store, a whitespace query
equals the List output, and the query "abc" returns exactly the rows
`LIKE`-matching `%abc%`. -/
theorem C5_witness :
    (pyStrip " " = "" ∧ api_search_orgs c5db " " = api_get_organizations c5db) ∧
    (pyStrip "abc" ≠ "" ∧ api_search_orgs c5db "abc" = .success 200 [c5org] ∧
      (c5org ∈ [c5org] ↔
        (c5org ∈ c5db.orgs ∧ orgMatches ("%" ++ pyStrip "abc" ++ "%") c5org = true))) :=
  ⟨⟨by decide, C5_search_vs_list.1 c5db " " (by decide)⟩,
    ⟨by decide, by decide,
      C5_search_vs_list.2.2.1 c5db "abc" [c5org] (by decide) (by decide) c5org⟩⟩

/-- C10: every row of a non-empty-query user search carries
`organization_name` but no `organization_slug` key, while every row of the
users List endpoint and of an empty-query user search carries both — the
two row shapes differ. -/
theorem C10_user_search_row_shape :
    (∀ db q rows, pyStrip q ≠ "" → api_search_users db q = .success 200 rows →
      ∀ r ∈ rows, "organization_name" ∈ rowKeys r ∧
        "organization_slug" ∉ rowKeys r) ∧
    (∀ db rows, api_get_users db = .success 200 rows →
      ∀ r ∈ rows, "organization_slug" ∈ rowKeys r ∧
        "organization_name" ∈ rowKeys r) ∧
    (∀ db q rows, pyStrip q = "" → api_search_users db q = .success 200 rows →
      ∀ r ∈ rows, "organization_slug" ∈ rowKeys r ∧
        "organization_name" ∈ rowKeys r) := by
  refine ⟨?_, ?_, ?_⟩
  · intro db q rows hq h r hr
    unfold api_search_users at h
    rw [if_neg hq] at h
    injection h with hc hb
    subst hb
    obtain ⟨u, hu, rfl⟩ := List.mem_map.mp hr
    simp [rowKeys, userRowJoinName, userBaseRow]
  · intro db rows h r hr
    unfold api_get_users at h
    injection h with hc hb
    subst hb
    obtain ⟨u, hu, rfl⟩ := List.mem_map.mp hr
    simp [rowKeys, userRowJoinFull, userBaseRow]
  · intro db q rows hq h r hr
    unfold api_search_users at h
    rw [if_pos hq] at h
    injection h with hc hb
    subst hb
    obtain ⟨u, hu, rfl⟩ := List.mem_map.mp hr
    simp [rowKeys, userRowJoinFull, userBaseRow]

/-- Witness for C10: on a one-user store, the row returned for query "Bob"
has `organization_name` and no `organization_slug`. -/
theorem C10_witness :
    (pyStrip "Bob" ≠ "" ∧
      api_search_users c10db "Bob" = .success 200 [userRowJoinName c10db c10user]) ∧
    ("organization_name" ∈ rowKeys (userRowJoinName c10db c10user) ∧
      "organization_slug" ∉ rowKeys (userRowJoinName c10db c10user)) :=
  ⟨⟨by decide, by decide⟩,
    C10_user_search_row_shape.1 c10db "Bob" [userRowJoinName c10db c10user]
      (by decide) (by decide) (userRowJoinName c10db c10user) (by simp)⟩

